import Mathlib

/-!
Shallow embedding of `clickhouse-websockets-angelone.py`: a streaming market-data
ingestion pipeline that authenticates against a broker API, opens a websocket,
subscribes to one instrument, decodes binary tick frames and appends quote rows
to a ClickHouse table.

Modelling conventions:
* Python exceptions are values of `PyExc`; a function that can raise returns
  `Except PyExc _` or pairs its result with `Option PyExc`.
* Python float arithmetic on the price fields is modelled over `ℚ`; the only
  arithmetic performed is division of an integer by 100.
* Wall-clock timestamps (`datetime.now()`) are not modelled; no claim depends
  on the recorded time value.
* I/O effects are recorded as an `Action` trace; sleeps carry their duration
  in the source's time unit (seconds).
* The dict produced by the binary parser is modelled as `ParsedMessage` with
  `Option` fields: `none` models an absent key, so `data[k]` is a `match`
  (raising `KeyError` on `none`) and `data.get(k, 0)` is `Option.getD _ 0`.
-/

namespace MarketFeed

/-- Python exception values observed by the handlers in the source. -/
inductive PyExc where
  | connectionError
  | timeoutError
  | sinkError
  | keyError (key : String)
  | tokenGenerationFailed (status : Nat) (body : String)
  deriving DecidableEq

/-- Does the exception carry the upstream HTTP status and response body?
Only the non-success branch of `generate_tokens` reports them (it prints the
status and body before raising). -/
def carriesStatusBody : PyExc → Bool
  | .tokenGenerationFailed _ _ => true
  | _ => false

/-- One row of the `angelone_market_data` table, as built by
`process_and_store_data` (the `datetime.now()` timestamp column is not
modelled). -/
structure QuoteRow where
  token : String
  last_traded_price : ℚ
  open_price_of_the_day : ℚ
  high_price_of_the_day : ℚ
  low_price_of_the_day : ℚ
  closed_price : ℚ
  volume_trade_for_the_day : ℚ
  deriving DecidableEq

/-- The subscribe control message built by `subscribe_to_quotes`. -/
structure TokenEntry where
  exchangeType : Nat
  tokens : List String
  deriving DecidableEq

/-- The subscribe control message built by `subscribe_to_quotes`. -/
structure SubscribeMsg where
  correlationID : String
  action : Nat
  mode : Nat
  tokenList : List TokenEntry
  deriving DecidableEq

/-- The constant subscription descriptor sent on every connection:
`correlationID "ws_test"`, `action 1`, `mode 2`, exchange 1, token "2885". -/
def subscribe_message : SubscribeMsg :=
  { correlationID := "ws_test", action := 1, mode := 2,
    tokenList := [{ exchangeType := 1, tokens := ["2885"] }] }

/-- Observable side effects of a run, in order of occurrence. -/
inductive Action where
  | ensureSchema
  | authRequest
  | connectAttempt (authTok feedTok : String)
  | subscribeSend (msg : SubscribeMsg)
  | wsParserInit (authTok feedTok : String)
  | pingSent
  | storeRow (row : QuoteRow)
  | storeFailLogged
  | errorLogged
  | sleep (secs : Nat)
  deriving DecidableEq

/-- The dict returned by the binary parser, keys as in the source. `none`
models an absent key. -/
structure ParsedMessage where
  token : Option String
  last_traded_price : Option ℤ
  open_price_of_the_day : Option ℤ
  high_price_of_the_day : Option ℤ
  low_price_of_the_day : Option ℤ
  closed_price : Option ℤ
  volume_trade_for_the_day : Option ℤ
  deriving DecidableEq

/-- An inbound binary buffer, abstracted to the features the decoder inspects:
its length, whether the token field parses, and which numeric fields the frame
variant carries. -/
structure RawFrame where
  len : Nat
  tokenField : Option String
  ltpField : ℤ
  openField : Option ℤ
  highField : Option ℤ
  lowField : Option ℤ
  closeField : Option ℤ
  volumeField : Option ℤ
  deriving DecidableEq

inductive DecodeError where
  | shortBuffer
  | badToken
  deriving DecidableEq

/-- Minimum frame length accepted by the decoder (the vendor LTP-mode packet
size; no claim depends on the exact value). -/
def MIN_FRAME_LEN : Nat := 51

/-- Modelled from the spec: `SmartWebSocketV2._parse_binary_data` is imported
from the `smartWebSocketV2` module, which is not part of this repository's
source tree. Per spec section 4.3 the decoder fails only when the buffer is
shorter than the minimum frame length or the token field is unparsable, and
fields absent from a frame variant are simply absent from the resulting dict
(the dict consumer defaults them to zero). -/
def parse_binary_data (fr : RawFrame) : Except DecodeError ParsedMessage :=
  if fr.len < MIN_FRAME_LEN then .error .shortBuffer
  else
    match fr.tokenField with
    | none => .error .badToken
    | some tok =>
        .ok { token := some tok
              last_traded_price := some fr.ltpField
              open_price_of_the_day := fr.openField
              high_price_of_the_day := fr.highField
              low_price_of_the_day := fr.lowField
              closed_price := fr.closeField
              volume_trade_for_the_day := fr.volumeField }

/-- `client.insert` on the ClickHouse client: appends the row, or raises when
the store is unreachable or rejects the row (`storeOk = false`). -/
def client_insert (storeOk : Bool) (db : List QuoteRow) (row : QuoteRow) :
    Except PyExc (List QuoteRow) :=
  if storeOk then .ok (db ++ [row]) else .error .sinkError

/-- `store_data_in_clickhouse`: the insert is wrapped in try/except; a failure
is logged and swallowed, leaving the table unchanged. -/
def store_data_in_clickhouse (storeOk : Bool) (db : List QuoteRow) (row : QuoteRow) :
    List Action × List QuoteRow :=
  match client_insert storeOk db row with
  | .ok db2 => ([.storeRow row], db2)
  | .error _ => ([.storeFailLogged], db)

/-- `process_and_store_data`: scales `last_traded_price` and the day
open/high/low/close by 1/100, keeps the volume magnitude unchanged, defaulting
each `.get` field to 0; `data['token']` and `data['last_traded_price']` are
required lookups, and the surrounding try/except turns their `KeyError` into a
log line with nothing stored. -/
def process_and_store_data (storeOk : Bool) (db : List QuoteRow) (data : ParsedMessage) :
    List Action × List QuoteRow :=
  match data.token, data.last_traded_price with
  | some tok, some ltp =>
      let adjusted : QuoteRow :=
        { token := tok
          last_traded_price := (ltp : ℚ) / 100
          open_price_of_the_day := ((data.open_price_of_the_day.getD 0 : ℤ) : ℚ) / 100
          high_price_of_the_day := ((data.high_price_of_the_day.getD 0 : ℤ) : ℚ) / 100
          low_price_of_the_day := ((data.low_price_of_the_day.getD 0 : ℤ) : ℚ) / 100
          closed_price := ((data.closed_price.getD 0 : ℤ) : ℚ) / 100
          volume_trade_for_the_day := ((data.volume_trade_for_the_day.getD 0 : ℤ) : ℚ) }
      store_data_in_clickhouse storeOk db adjusted
  | _, _ => ([], db)

/-- The module-level globals `AUTH_TOKEN` and `FEED_TOKEN`, both initialised
to `None`. -/
structure TokenState where
  AUTH_TOKEN : Option String
  FEED_TOKEN : Option String
  deriving DecidableEq

/-- The response of the login endpoint, abstracted to what `generate_tokens`
inspects: the HTTP status, the response text, and the two token fields of the
JSON body (`none` models a missing `data`/`jwtToken`/`feedToken` key). -/
structure AuthResponse where
  status : Nat
  body : String
  jwtToken : Option String
  feedToken : Option String
  deriving DecidableEq

/-- `generate_tokens`: on status 200 it assigns `AUTH_TOKEN` from
`data['data']['jwtToken']` and then `FEED_TOKEN` from
`data['data']['feedToken']`, in that order, so a missing `feedToken` raises
`KeyError` after `AUTH_TOKEN` was already overwritten; on any other status it
prints the status and the response text and raises
`Exception("Token generation failed")`. -/
def generate_tokens (resp : AuthResponse) (s : TokenState) : TokenState × Option PyExc :=
  if resp.status = 200 then
    match resp.jwtToken with
    | none => (s, some (.keyError "jwtToken"))
    | some jwt =>
        let s1 : TokenState := { s with AUTH_TOKEN := some jwt }
        match resp.feedToken with
        | none => (s1, some (.keyError "feedToken"))
        | some fd => ({ s1 with FEED_TOKEN := some fd }, none)
  else (s, some (.tokenGenerationFailed resp.status resp.body))

/-- An inbound websocket message: a binary buffer or a text frame. -/
inductive RawMsg where
  | binaryFrame (fr : RawFrame)
  | textFrame
  deriving DecidableEq

/-- What `websocket.recv()` does on one iteration of the receive loop:
deliver a message after `delay` time-units, raise `ConnectionClosed` after
`delay` time-units, or stay silent past any timeout. -/
inductive RecvOutcome where
  | frame (m : RawMsg) (delay : Nat)
  | closedByPeer (delay : Nat)
  | silence
  deriving DecidableEq

/-- Environment input for one iteration of the receive loop: the recv
outcome, when (if ever) a pong would answer a ping, and whether the
ClickHouse insert for this iteration's frame would succeed. -/
structure InnerEvent where
  recv : RecvOutcome
  pongDelay : Option Nat
  storeOk : Bool
  deriving DecidableEq

/-- `asyncio.wait_for(websocket.recv(), timeout=30)`. -/
def RECV_TIMEOUT : Nat := 30

/-- `asyncio.wait_for(pong_waiter, timeout=10)`. -/
def PONG_TIMEOUT : Nat := 10

/-- The `except asyncio.TimeoutError` handler: a ping was sent and
`asyncio.wait_for(pong_waiter, timeout=10)` either gets the pong in time
(`none`: the loop continues) or raises `TimeoutError` out of the handler. -/
def watchdog (pongDelay : Option Nat) : Option PyExc :=
  match pongDelay with
  | some p => if p ≤ PONG_TIMEOUT then none else some .timeoutError
  | none => some .timeoutError

/-- The body run on a delivered message: only `bytes` messages are parsed
(`isinstance(message, bytes)`), and only a truthy parse result is processed. -/
def handle_frame (m : RawMsg) (storeOk : Bool) (db : List QuoteRow) :
    List Action × List QuoteRow :=
  match m with
  | .textFrame => ([], db)
  | .binaryFrame fr =>
      match parse_binary_data fr with
      | .error _ => ([], db)
      | .ok pm => process_and_store_data storeOk db pm

/-- How one run of the inner `while True` receive loop ends. -/
inductive InnerExit where
  | streaming
  | closedBreak
  | raised (e : PyExc)
  deriving DecidableEq

/-- The inner `while True` receive loop of `connect_websocket`, driven by a
finite script of environment events; `.streaming` means the script ended with
the loop still waiting for the next message. A `TimeoutError` raised inside
the `except asyncio.TimeoutError` handler escapes the whole try statement. -/
def inner_run : List InnerEvent → List QuoteRow → List Action × List QuoteRow × InnerExit
  | [], db => ([], db, .streaming)
  | ⟨recv, pongDelay, storeOk⟩ :: rest, db =>
      match recv with
      | .frame m d =>
          if d ≤ RECV_TIMEOUT then
            let h := handle_frame m storeOk db
            let r := inner_run rest h.2
            (h.1 ++ r.1, r.2)
          else
            match watchdog pongDelay with
            | none =>
                let r := inner_run rest db
                (Action.pingSent :: r.1, r.2)
            | some e => ([Action.pingSent], db, .raised e)
      | .closedByPeer d =>
          if d ≤ RECV_TIMEOUT then ([], db, .closedBreak)
          else
            match watchdog pongDelay with
            | none =>
                let r := inner_run rest db
                (Action.pingSent :: r.1, r.2)
            | some e => ([Action.pingSent], db, .raised e)
      | .silence =>
          match watchdog pongDelay with
          | none =>
              let r := inner_run rest db
              (Action.pingSent :: r.1, r.2)
          | some e => ([Action.pingSent], db, .raised e)

/-- One scripted connection attempt of the outer `while True` loop:
`websockets.connect` either raises or yields a connection whose receive loop
sees the given events. -/
inductive ConnAttempt where
  | fail
  | ok (events : List InnerEvent)
  deriving DecidableEq

/-- Accumulated observable state of one `connect_websocket` run. -/
structure RunAcc where
  trace : List Action
  db : List QuoteRow
  deriving DecidableEq

/-- Actions performed between entering the `async with` block and entering the
receive loop: the connect presents both tokens as headers, the subscribe
message is sent, and the parser is constructed from the same tokens. -/
def connect_headers_trace (authTok feedTok : String) : List Action :=
  [.connectAttempt authTok feedTok, .subscribeSend subscribe_message,
   .wsParserInit authTok feedTok]

/-- One pass of the outer `while True` body. A failed connect is caught by the
outer `except Exception`, logged, and followed by `asyncio.sleep(5)`; a
`ConnectionClosed` break falls through to the same 5-second sleep without the
error log; any raised exception is caught, logged, and slept over likewise.
The `Bool` is whether control reaches the top of the loop again. -/
def outer_step (authTok feedTok : String) (att : ConnAttempt) (acc : RunAcc) :
    RunAcc × Bool :=
  match att with
  | .fail =>
      ({ trace := acc.trace ++ [.connectAttempt authTok feedTok, .errorLogged, .sleep 5]
         db := acc.db }, true)
  | .ok events =>
      let r := inner_run events acc.db
      match r.2.2 with
      | .streaming =>
          ({ trace := acc.trace ++ connect_headers_trace authTok feedTok ++ r.1
             db := r.2.1 }, false)
      | .closedBreak =>
          ({ trace := acc.trace ++ connect_headers_trace authTok feedTok ++ r.1 ++ [.sleep 5]
             db := r.2.1 }, true)
      | .raised _ =>
          ({ trace := acc.trace ++ connect_headers_trace authTok feedTok ++ r.1
                      ++ [.errorLogged, .sleep 5]
             db := r.2.1 }, true)

/-- Where a `connect_websocket` run stands when its script is exhausted:
back at the top of the outer loop, or blocked inside a live receive loop. -/
inductive OuterStatus where
  | atLoopTop
  | streamingBlocked
  deriving DecidableEq

/-- The outer `while True` loop over scripted connection attempts. -/
def outer_run (authTok feedTok : String) :
    List ConnAttempt → RunAcc → RunAcc × OuterStatus
  | [], acc => (acc, .atLoopTop)
  | att :: rest, acc =>
      match outer_step authTok feedTok att acc with
      | (acc2, true) => outer_run authTok feedTok rest acc2
      | (acc2, false) => (acc2, .streamingBlocked)

/-- Python truthiness of a token global: `None` and the empty string are
falsy. -/
def isFalsy : Option String → Bool
  | none => true
  | some s => s.isEmpty

/-- How a `connect_websocket` call relates to its caller when the observation
script ends: it returned `None` immediately (tokens unset), or it is still
inside `while True` and has not returned. -/
inductive ConnectResult where
  | earlyReturn (acc : RunAcc)
  | looping (acc : RunAcc) (st : OuterStatus)
  deriving DecidableEq

/-- `connect_websocket`: returns `None` at once when either token global is
falsy; otherwise builds the headers once from the globals and enters the
outer reconnect loop, which catches every `Exception`, so the call never
raises and never returns. -/
def connect_websocket (authTok feedTok : Option String) (script : List ConnAttempt) :
    Except PyExc ConnectResult :=
  if isFalsy authTok || isFalsy feedTok then
    .ok (.earlyReturn { trace := [], db := [] })
  else
    .ok (.looping
      (outer_run (authTok.getD "") (feedTok.getD "") script { trace := [], db := [] }).1
      (outer_run (authTok.getD "") (feedTok.getD "") script { trace := [], db := [] }).2)

/-- `backoff.expo` delay (seconds, jitter ignored) before retry number
`k`. -/
def backoff_expo (k : Nat) : Nat := 2 ^ k

/-- `max_tries=10` of the `backoff.on_exception` decorator. -/
def MAX_TRIES : Nat := 10

/-- The retry loop installed by `@backoff.on_exception(backoff.expo,
Exception, max_tries=10)`: call the wrapped function; on an exception with
tries left, sleep the exponential delay and call again, otherwise re-raise.
Returns the outcome and the list of backoff delays slept. The 0/1 cases both
make the final call whose outcome propagates. -/
def retry_loop (authTok feedTok : Option String) (script : List ConnAttempt) :
    Nat → Nat → Except PyExc ConnectResult × List Nat
  | 0, _ => (connect_websocket authTok feedTok script, [])
  | 1, _ => (connect_websocket authTok feedTok script, [])
  | n + 2, k =>
      match connect_websocket authTok feedTok script with
      | .ok r => (.ok r, [])
      | .error _ =>
          let r2 := retry_loop authTok feedTok script (n + 1) (k + 1)
          (r2.1, backoff_expo k :: r2.2)

/-- `connect_with_retry`: `connect_websocket` wrapped by the backoff
decorator. -/
def connect_with_retry (authTok feedTok : Option String) (script : List ConnAttempt) :
    Except PyExc ConnectResult × List Nat :=
  retry_loop authTok feedTok script MAX_TRIES 0

/-- Environment input for one iteration of `main`'s `while True` loop: the
login response and, should the connect phase run, its connection script. -/
structure IterInput where
  resp : AuthResponse
  script : List ConnAttempt
  deriving DecidableEq

/-- `main_iter`: one pass of `main`'s loop body from token state `s`.
`generate_tokens` and `connect_with_retry` run inside `try`; any exception is
caught and logged, and the unconditional `asyncio.sleep(10)` runs before the
next pass. The `Bool` is whether control reaches the top of the loop again
(`false`: the run is blocked inside `connect_websocket`, which never
returns once streaming). -/
def main_iter (it : IterInput) (s : TokenState) : TokenState × List Action × Bool :=
  let g := generate_tokens it.resp s
  match g.2 with
  | some _ => (g.1, [.authRequest, .errorLogged, .sleep 10], true)
  | none =>
      let c := connect_with_retry g.1.AUTH_TOKEN g.1.FEED_TOKEN it.script
      match c.1 with
      | .ok (.earlyReturn acc) =>
          (g.1, [.authRequest] ++ c.2.map Action.sleep ++ acc.trace ++ [.sleep 10], true)
      | .ok (.looping acc _) =>
          (g.1, [.authRequest] ++ c.2.map Action.sleep ++ acc.trace, false)
      | .error _ =>
          (g.1, [.authRequest] ++ c.2.map Action.sleep ++ [.errorLogged, .sleep 10], true)

/-- Where a `main` run stands when the observation script ends. -/
inductive MainStatus where
  | atLoopTop
  | insideConnect
  deriving DecidableEq

/-- `main`'s `while True` loop over scripted iterations. -/
def main_loop : List IterInput → TokenState → List Action →
    TokenState × List Action × MainStatus
  | [], s, tr => (s, tr, .atLoopTop)
  | it :: rest, s, tr =>
      match main_iter it s with
      | (s2, acts, true) => main_loop rest s2 (tr ++ acts)
      | (s2, acts, false) => (s2, tr ++ acts, .insideConnect)

/-- `main`: `create_clickhouse_table()` runs exactly once, before the loop;
the globals start as `None`. -/
def main_run (iters : List IterInput) : TokenState × List Action × MainStatus :=
  main_loop iters { AUTH_TOKEN := none, FEED_TOKEN := none } [.ensureSchema]

/-- Discriminator: is the action a sleep? -/
def isSleepAct : Action → Bool
  | .sleep _ => true
  | _ => false

/-- Discriminator: is the action the schema-ensure call? -/
def isEnsure : Action → Bool
  | .ensureSchema => true
  | _ => false

/-- The trace produced by `n` consecutive failed connection attempts of the
outer loop. -/
def failTrace (authTok feedTok : String) : Nat → List Action
  | 0 => []
  | n + 1 => [.connectAttempt authTok feedTok, .errorLogged, .sleep 5]
             ++ failTrace authTok feedTok n

/-- Actions the receive loop itself can emit. -/
def innerActionOk (act : Action) : Prop :=
  act = .pingSent ∨ (∃ r, act = .storeRow r) ∨ act = .storeFailLogged

/-- Actions one `connect_websocket` run with tokens `authTok`, `feedTok` can
emit. -/
def outerActionOk (authTok feedTok : String) (act : Action) : Prop :=
  act = .connectAttempt authTok feedTok ∨ act = .subscribeSend subscribe_message ∨
  act = .wsParserInit authTok feedTok ∨ act = .sleep 5 ∨ act = .errorLogged ∨
  innerActionOk act

/-- A well-formed frame at the minimum length whose variant carries only the
token and the last traded price. -/
def frameMin : RawFrame :=
  { len := 51, tokenField := some "2885", ltpField := 100,
    openField := none, highField := none, lowField := none,
    closeField := none, volumeField := none }

/-- The dict the decoder produces for `frameMin`. -/
def minimalParsed : ParsedMessage :=
  { token := some "2885", last_traded_price := some 100,
    open_price_of_the_day := none, high_price_of_the_day := none,
    low_price_of_the_day := none, closed_price := none,
    volume_trade_for_the_day := none }

/-- A buffer shorter than the minimum frame length. -/
def shortFrame : RawFrame :=
  { len := 10, tokenField := some "2885", ltpField := 100,
    openField := none, highField := none, lowField := none,
    closeField := none, volumeField := none }

/-- A fully populated decoded frame: last traded price 250000 (scaled),
volume 1000. -/
def sampleFullMsg : ParsedMessage :=
  { token := some "2885", last_traded_price := some 250000,
    open_price_of_the_day := some 241000, high_price_of_the_day := some 252000,
    low_price_of_the_day := some 240000, closed_price := some 249000,
    volume_trade_for_the_day := some 1000 }

/-- The initial token globals: both `None`. -/
def initialTokens : TokenState := { AUTH_TOKEN := none, FEED_TOKEN := none }

/-- Token globals left over from a previous successful session. -/
def prevTokens : TokenState :=
  { AUTH_TOKEN := some "OLDJWT", FEED_TOKEN := some "OLDFEED" }

/-- A success-status login response whose body carries `jwtToken` but no
`feedToken`. -/
def respMissingFeed : AuthResponse :=
  { status := 200, body := "partial-body", jwtToken := some "NEWJWT", feedToken := none }

/-- A receive-loop event: a binary frame delivered promptly whose ClickHouse
insert fails. -/
def evStoreFail : InnerEvent :=
  { recv := .frame (.binaryFrame frameMin) 1, pongDelay := none, storeOk := false }

/-- A receive-loop event: the same binary frame delivered promptly with the
insert succeeding. -/
def evStoreOk : InnerEvent :=
  { recv := .frame (.binaryFrame frameMin) 1, pongDelay := none, storeOk := true }

/-- A receive-loop event: nothing arrives within the inactivity window and no
pong ever answers the ping. -/
def evDead : InnerEvent :=
  { recv := .silence, pongDelay := none, storeOk := true }

/-- No frame of any kind (message or close signal) is delivered within the
inactivity window. -/
def noFrameWithin (ev : InnerEvent) : Bool :=
  match ev.recv with
  | .silence => true
  | .frame _ d => decide (RECV_TIMEOUT < d)
  | .closedByPeer d => decide (RECV_TIMEOUT < d)

/-- The pong does not arrive within the probe window. -/
def pongLate (ev : InnerEvent) : Bool :=
  match ev.pongDelay with
  | none => true
  | some p => decide (PONG_TIMEOUT < p)

/-- A login response that fails with a non-success status. -/
def respRejected : AuthResponse :=
  { status := 500, body := "server error", jwtToken := none, feedToken := none }

/-- `connect_websocket` never raises: its outer loop catches every
`Exception`, so every call evaluates to an `Except.ok` value. -/
theorem connect_websocket_ok (authTok feedTok : Option String) (script : List ConnAttempt) :
    ∃ r, connect_websocket authTok feedTok script = .ok r := by
  unfold connect_websocket
  by_cases h : (isFalsy authTok || isFalsy feedTok) = true
  · rw [if_pos h]; exact ⟨_, rfl⟩
  · rw [if_neg h]; exact ⟨_, rfl⟩

/-- When the wrapped call returns `Except.ok`, the backoff decorator performs
no retry and sleeps no backoff delay. -/
theorem retry_loop_ok (authTok feedTok : Option String) (script : List ConnAttempt)
    (r : ConnectResult) (h : connect_websocket authTok feedTok script = .ok r) :
    ∀ n k, retry_loop authTok feedTok script n k = (.ok r, []) := by
  intro n k
  match n with
  | 0 => simp [retry_loop, h]
  | 1 => simp [retry_loop, h]
  | m + 2 => simp [retry_loop, h]

/-- Claim C2: for every decoded frame with all fields present, the stored
quote row scales last traded price and day open/high/low/close by 1/100 and
keeps the volume magnitude unchanged; in particular a frame with last traded
price 250000 and volume 1000 yields exactly one stored row with price 2500
and volume 1000. -/
theorem quote_scaling_c2 :
    (∀ (tok : String) (ltp op hi lo cl vol : ℤ) (db : List QuoteRow),
      ∃ row : QuoteRow,
        process_and_store_data true db
          { token := some tok, last_traded_price := some ltp,
            open_price_of_the_day := some op, high_price_of_the_day := some hi,
            low_price_of_the_day := some lo, closed_price := some cl,
            volume_trade_for_the_day := some vol } = ([.storeRow row], db ++ [row]) ∧
        row.token = tok ∧
        row.last_traded_price = (ltp : ℚ) / 100 ∧
        row.open_price_of_the_day = (op : ℚ) / 100 ∧
        row.high_price_of_the_day = (hi : ℚ) / 100 ∧
        row.low_price_of_the_day = (lo : ℚ) / 100 ∧
        row.closed_price = (cl : ℚ) / 100 ∧
        row.volume_trade_for_the_day = (vol : ℚ)) ∧
    (∃ row : QuoteRow,
        process_and_store_data true [] sampleFullMsg = ([.storeRow row], [row]) ∧
        row.last_traded_price = 2500 ∧ row.volume_trade_for_the_day = 1000) := by
  constructor
  · intro tok ltp op hi lo cl vol db
    exact ⟨_, rfl, rfl, rfl, rfl, rfl, rfl, rfl, rfl⟩
  · refine ⟨_, rfl, ?_, ?_⟩ <;> norm_num [sampleFullMsg, process_and_store_data]

/-- Claim C3: the decoder fails exactly when the buffer is below the minimum
frame length or the token field is unparsable; a successfully decoded frame is
always processed into one stored row, with every optional field that the frame
omits defaulted to zero. -/
theorem decode_failure_and_defaults_c3 :
    (∀ fr : RawFrame,
      (∃ e, parse_binary_data fr = .error e) ↔
        (fr.len < MIN_FRAME_LEN ∨ fr.tokenField = none)) ∧
    (∀ (fr : RawFrame) (pm : ParsedMessage) (db : List QuoteRow),
      parse_binary_data fr = .ok pm →
      ∃ row : QuoteRow,
        process_and_store_data true db pm = ([.storeRow row], db ++ [row]) ∧
        (fr.openField = none → row.open_price_of_the_day = 0) ∧
        (fr.highField = none → row.high_price_of_the_day = 0) ∧
        (fr.lowField = none → row.low_price_of_the_day = 0) ∧
        (fr.closeField = none → row.closed_price = 0) ∧
        (fr.volumeField = none → row.volume_trade_for_the_day = 0)) := by
  constructor
  · intro fr
    by_cases hl : fr.len < MIN_FRAME_LEN
    · simp [parse_binary_data, hl]
    · cases htok : fr.tokenField with
      | none => simp [parse_binary_data, hl, htok]
      | some tok => simp [parse_binary_data, hl, htok]
  · intro fr pm db hok
    by_cases hl : fr.len < MIN_FRAME_LEN
    · simp [parse_binary_data, hl] at hok
    · cases htok : fr.tokenField with
      | none => simp [parse_binary_data, hl, htok] at hok
      | some tok =>
          simp [parse_binary_data, hl, htok] at hok
          subst hok
          refine ⟨_, rfl, ?_, ?_, ?_, ?_, ?_⟩ <;> intro h0 <;> simp [h0]

/-- Witness for C3 at a concrete minimal frame omitting every optional
field. -/
theorem decode_failure_and_defaults_c3_witness :
    ∃ row : QuoteRow,
      process_and_store_data true [] minimalParsed = ([.storeRow row], [] ++ [row]) ∧
      (frameMin.openField = none → row.open_price_of_the_day = 0) ∧
      (frameMin.highField = none → row.high_price_of_the_day = 0) ∧
      (frameMin.lowField = none → row.low_price_of_the_day = 0) ∧
      (frameMin.closeField = none → row.closed_price = 0) ∧
      (frameMin.volumeField = none → row.volume_trade_for_the_day = 0) :=
  decode_failure_and_defaults_c3.2 frameMin minimalParsed [] rfl

/-- Claim C9: when either token global is falsy (`None` or empty),
`connect_websocket` returns immediately with a normal result, performing no
action at all, and the backoff wrapper observes that success as-is. -/
theorem unset_tokens_early_return_c9 :
    ∀ (authTok feedTok : Option String) (script : List ConnAttempt),
      isFalsy authTok = true ∨ isFalsy feedTok = true →
      connect_websocket authTok feedTok script =
        .ok (.earlyReturn { trace := [], db := [] }) ∧
      connect_with_retry authTok feedTok script =
        (.ok (.earlyReturn { trace := [], db := [] }), []) := by
  intro authTok feedTok script h
  have hcw : connect_websocket authTok feedTok script =
      .ok (.earlyReturn { trace := [], db := [] }) := by
    rcases h with h | h <;> simp [connect_websocket, h]
  exact ⟨hcw, retry_loop_ok _ _ _ _ hcw MAX_TRIES 0⟩

/-- Witness for C9: an unset auth token. -/
theorem unset_tokens_early_return_c9_witness :
    connect_websocket none (some "F") [] =
      .ok (.earlyReturn { trace := [], db := [] }) ∧
    connect_with_retry none (some "F") [] =
      (.ok (.earlyReturn { trace := [], db := [] }), []) :=
  unset_tokens_early_return_c9 none (some "F") [] (Or.inl rfl)

/-- Counterexample to claim C5 as stated: a success-status response missing
the `feedToken` field fails with a key-lookup error that carries neither the
upstream status nor the body. -/
theorem auth_failure_payload_counterexample_c5 :
    ((generate_tokens respMissingFeed initialTokens).2).isSome = true ∧
    Option.map carriesStatusBody (generate_tokens respMissingFeed initialTokens).2 =
      some false := ⟨rfl, rfl⟩

/-- Claim C5 (amended): session acquisition fails exactly when the status is
not 200 or a token field is missing; only the non-success-status failure
carries the upstream status and body, and a successful response yields the
extracted token pair. -/
theorem auth_session_acquisition_c5 :
    (∀ (resp : AuthResponse) (s : TokenState),
      (generate_tokens resp s).2 = none ↔
        (resp.status = 200 ∧ resp.jwtToken.isSome = true ∧ resp.feedToken.isSome = true)) ∧
    (∀ (resp : AuthResponse) (s : TokenState), resp.status ≠ 200 →
      (generate_tokens resp s).2 = some (.tokenGenerationFailed resp.status resp.body)) ∧
    (∀ (resp : AuthResponse) (s : TokenState) (jwt fd : String),
      resp.status = 200 → resp.jwtToken = some jwt → resp.feedToken = some fd →
      generate_tokens resp s = ({ AUTH_TOKEN := some jwt, FEED_TOKEN := some fd }, none)) := by
  refine ⟨?_, ?_, ?_⟩
  · intro resp s
    by_cases hs : resp.status = 200
    · cases hj : resp.jwtToken with
      | none => simp [generate_tokens, hs, hj]
      | some jwt =>
          cases hf : resp.feedToken with
          | none => simp [generate_tokens, hs, hj, hf]
          | some fd => simp [generate_tokens, hs, hj, hf]
    · simp [generate_tokens, hs]
  · intro resp s hs
    simp [generate_tokens, hs]
  · intro resp s jwt fd hs hj hf
    simp [generate_tokens, hs, hj, hf]

/-- Witness for C5 (amended) at a concrete successful response. -/
theorem auth_session_acquisition_c5_witness :
    generate_tokens
        { status := 200, body := "b", jwtToken := some "J", feedToken := some "K" }
        initialTokens =
      ({ AUTH_TOKEN := some "J", FEED_TOKEN := some "K" }, none) :=
  auth_session_acquisition_c5.2.2 _ initialTokens "J" "K" rfl rfl rfl

/-- Counterexample to claim C10 as stated: a success-status response carrying
`jwtToken` but no `feedToken` overwrites `AUTH_TOKEN` while leaving
`FEED_TOKEN` at its previous value, so the pair is updated on a response that
does not carry both fields. -/
theorem token_atomicity_counterexample_c10 :
    (generate_tokens respMissingFeed prevTokens).1 =
      { AUTH_TOKEN := some "NEWJWT", FEED_TOKEN := some "OLDFEED" } ∧
    respMissingFeed.feedToken = none ∧
    (generate_tokens respMissingFeed prevTokens).1 ≠ prevTokens := by
  refine ⟨rfl, rfl, ?_⟩
  decide

/-- Claim C10 (amended): a non-success response, or one missing `jwtToken`,
leaves both token globals unchanged, and `FEED_TOKEN` changes only when the
response is a success carrying both fields; `AUTH_TOKEN`, however, is
overwritten by any success response carrying `jwtToken`, even when `feedToken`
is absent and the call then fails. -/
theorem token_update_non_atomic_c10 :
    (∀ (resp : AuthResponse) (s : TokenState), resp.status ≠ 200 →
      (generate_tokens resp s).1 = s) ∧
    (∀ (resp : AuthResponse) (s : TokenState), resp.jwtToken = none →
      (generate_tokens resp s).1 = s) ∧
    (∀ (resp : AuthResponse) (s : TokenState),
      (generate_tokens resp s).1.FEED_TOKEN ≠ s.FEED_TOKEN →
      resp.status = 200 ∧ resp.jwtToken.isSome = true ∧ resp.feedToken.isSome = true) ∧
    (∀ (resp : AuthResponse) (s : TokenState) (jwt : String),
      resp.status = 200 → resp.jwtToken = some jwt → resp.feedToken = none →
      (generate_tokens resp s).1 = { s with AUTH_TOKEN := some jwt } ∧
      ((generate_tokens resp s).2).isSome = true) := by
  refine ⟨?_, ?_, ?_, ?_⟩
  · intro resp s hs
    simp [generate_tokens, hs]
  · intro resp s hj
    by_cases hs : resp.status = 200
    · simp [generate_tokens, hs, hj]
    · simp [generate_tokens, hs]
  · intro resp s h
    by_cases hs : resp.status = 200
    · cases hj : resp.jwtToken with
      | none => simp [generate_tokens, hs, hj] at h
      | some jwt =>
          cases hf : resp.feedToken with
          | none => simp [generate_tokens, hs, hj, hf] at h
          | some fd => simp [hs, hj, hf]
    · simp [generate_tokens, hs] at h
  · intro resp s jwt hs hj hf
    simp [generate_tokens, hs, hj, hf]

/-- Witness for C10 (amended) at the concrete partial response. -/
theorem token_update_non_atomic_c10_witness :
    (generate_tokens respMissingFeed prevTokens).1 =
      { prevTokens with AUTH_TOKEN := some "NEWJWT" } ∧
    ((generate_tokens respMissingFeed prevTokens).2).isSome = true :=
  token_update_non_atomic_c10.2.2.2 respMissingFeed prevTokens "NEWJWT" rfl rfl rfl

/-- Claim C4: a failed ClickHouse insert is caught, logged and swallowed
inside the append; it never escapes into the receive loop, and the remaining
inbound events are processed exactly as they would have been. -/
theorem sink_failure_contained_c4 :
    ∀ (fr : RawFrame) (pm : ParsedMessage) (d : Nat) (pd : Option Nat)
      (rest : List InnerEvent) (db : List QuoteRow),
      parse_binary_data fr = .ok pm → d ≤ RECV_TIMEOUT →
      inner_run
          ({ recv := .frame (.binaryFrame fr) d, pongDelay := pd, storeOk := false } :: rest)
          db =
        (Action.storeFailLogged :: (inner_run rest db).1, (inner_run rest db).2) := by
  intro fr pm d pd rest db hok hd
  by_cases hl : fr.len < MIN_FRAME_LEN
  · simp [parse_binary_data, hl] at hok
  · cases htok : fr.tokenField with
    | none => simp [parse_binary_data, hl, htok] at hok
    | some tok =>
        simp [parse_binary_data, hl, htok] at hok
        subst hok
        simp [inner_run, hd, handle_frame, parse_binary_data, hl, htok,
              process_and_store_data, store_data_in_clickhouse, client_insert]

/-- Witness for C4: a store failure on the first frame leaves the second
frame's processing untouched. -/
theorem sink_failure_contained_c4_witness :
    inner_run (evStoreFail :: [evStoreOk]) [] =
      (Action.storeFailLogged :: (inner_run [evStoreOk] []).1, (inner_run [evStoreOk] []).2) :=
  sink_failure_contained_c4 frameMin minimalParsed 1 none [evStoreOk] [] rfl (by decide)

/-- Claim C7: the receive loop reads with a 30-unit inactivity timeout; a
frame delivered within it is handled normally; when nothing arrives in the
window a ping is issued and the pong is awaited for at most 10 units — a
timely pong resumes the loop, while a late or absent pong raises out of the
loop, and the outer loop then treats the connection as dead and proceeds to
reconnect. -/
theorem heartbeat_watchdog_c7 :
    RECV_TIMEOUT = 30 ∧ PONG_TIMEOUT = 10 ∧
    (∀ (m : RawMsg) (d : Nat) (pd : Option Nat) (so : Bool) (db : List QuoteRow),
      d ≤ RECV_TIMEOUT →
      inner_run [{ recv := .frame m d, pongDelay := pd, storeOk := so }] db =
        ((handle_frame m so db).1, (handle_frame m so db).2, .streaming)) ∧
    (∀ (ev : InnerEvent) (db : List QuoteRow) (p : Nat),
      noFrameWithin ev = true → ev.pongDelay = some p → p ≤ PONG_TIMEOUT →
      inner_run [ev] db = ([Action.pingSent], db, .streaming)) ∧
    (∀ (ev : InnerEvent) (db : List QuoteRow),
      noFrameWithin ev = true → pongLate ev = true →
      inner_run [ev] db = ([Action.pingSent], db, .raised .timeoutError)) ∧
    (∀ (ev : InnerEvent) (authTok feedTok : String) (acc : RunAcc),
      noFrameWithin ev = true → pongLate ev = true →
      outer_step authTok feedTok (.ok [ev]) acc =
        ({ trace := acc.trace ++ connect_headers_trace authTok feedTok
                    ++ [Action.pingSent] ++ [Action.errorLogged, Action.sleep 5]
           db := acc.db }, true)) := by
  have hlate : ∀ (ev : InnerEvent), noFrameWithin ev = true → pongLate ev = true →
      inner_run [ev] = fun db => ([Action.pingSent], db, InnerExit.raised .timeoutError) := by
    intro ev h hp
    funext db
    obtain ⟨recv, pd, so⟩ := ev
    have hw : watchdog pd = some PyExc.timeoutError := by
      cases pd with
      | none => rfl
      | some p =>
          simp [pongLate] at hp
          simp [watchdog, Nat.not_le.mpr hp]
    cases recv with
    | silence => simp [inner_run, hw]
    | frame m d =>
        simp [noFrameWithin] at h
        simp [inner_run, Nat.not_le.mpr h, hw]
    | closedByPeer d =>
        simp [noFrameWithin] at h
        simp [inner_run, Nat.not_le.mpr h, hw]
  refine ⟨rfl, rfl, ?_, ?_, ?_, ?_⟩
  · intro m d pd so db hd
    simp [inner_run, hd]
  · intro ev db p h hp hple
    obtain ⟨recv, pd, so⟩ := ev
    simp only at hp
    subst hp
    have hw : watchdog (some p) = none := by simp [watchdog, hple]
    cases recv with
    | silence => simp [inner_run, hw]
    | frame m d =>
        simp [noFrameWithin] at h
        simp [inner_run, Nat.not_le.mpr h, hw]
    | closedByPeer d =>
        simp [noFrameWithin] at h
        simp [inner_run, Nat.not_le.mpr h, hw]
  · intro ev db h hp
    exact congrFun (hlate ev h hp) db
  · intro ev authTok feedTok acc h hp
    have hr := congrFun (hlate ev h hp) acc.db
    simp [outer_step, hr]

/-- Witness for C7: a silent window with no pong at all. -/
theorem heartbeat_watchdog_c7_witness :
    inner_run [evDead] [] = ([Action.pingSent], [], .raised .timeoutError) ∧
    outer_step "A" "F" (.ok [evDead]) { trace := [], db := [] } =
      ({ trace := ([] : List Action) ++ connect_headers_trace "A" "F"
                  ++ [Action.pingSent] ++ [Action.errorLogged, Action.sleep 5]
         db := [] }, true) :=
  ⟨heartbeat_watchdog_c7.2.2.2.2.1 evDead [] rfl rfl,
   heartbeat_watchdog_c7.2.2.2.2.2 evDead "A" "F" { trace := [], db := [] } rfl rfl⟩

/-- A failed connect is absorbed by the outer loop: log, sleep 5, retry. -/
theorem outer_run_fail_cons (authTok feedTok : String) (rest : List ConnAttempt)
    (acc : RunAcc) :
    outer_run authTok feedTok (ConnAttempt.fail :: rest) acc =
      outer_run authTok feedTok rest
        { trace := acc.trace ++ [.connectAttempt authTok feedTok, .errorLogged, .sleep 5]
          db := acc.db } := by
  simp [outer_run, outer_step]

/-- A run in which every attempt fails stays in the outer loop, producing the
fixed fail trace. -/
theorem outer_run_replicate_fail (authTok feedTok : String) :
    ∀ (n : Nat) (acc : RunAcc),
      outer_run authTok feedTok (List.replicate n .fail) acc =
        ({ trace := acc.trace ++ failTrace authTok feedTok n, db := acc.db }, .atLoopTop) := by
  intro n
  induction n with
  | zero => intro acc; simp [outer_run, failTrace]
  | succ m ih =>
      intro acc
      rw [List.replicate_succ, outer_run_fail_cons, ih]
      simp [failTrace]

/-- Every sleep in the fail trace lasts exactly 5 time-units. -/
theorem failTrace_filter_sleep (authTok feedTok : String) (n : Nat) :
    (failTrace authTok feedTok n).filter isSleepAct = List.replicate n (Action.sleep 5) := by
  induction n with
  | zero => rfl
  | succ m ih => simp [failTrace, isSleepAct, List.replicate_succ, ih]

/-- With both tokens truthy, `connect_websocket` enters its outer loop and
never returns. -/
theorem connect_websocket_tokens_set (authTok feedTok : String)
    (ha : authTok.isEmpty = false) (hf : feedTok.isEmpty = false)
    (script : List ConnAttempt) :
    connect_websocket (some authTok) (some feedTok) script =
      .ok (.looping (outer_run authTok feedTok script { trace := [], db := [] }).1
                    (outer_run authTok feedTok script { trace := [], db := [] }).2) := by
  rw [connect_websocket, if_neg]
  · rfl
  · simp [isFalsy, ha, hf]

/-- Claim C1, the code evaluated at the failing input: with both tokens set
and every connection attempt failing, the supervisor retries forever with a
constant 5-unit delay; every such run stays inside the loop, the retry count
is unbounded, the backoff decorator sleeps none of its exponential delays,
and no exhaustion error is ever propagated to the caller. -/
theorem connect_retry_never_exhausts_c1 :
    ∀ n : Nat,
      connect_with_retry (some "A") (some "F") (List.replicate n .fail) =
        (.ok (.looping { trace := failTrace "A" "F" n, db := [] } .atLoopTop), []) ∧
      (failTrace "A" "F" n).filter isSleepAct = List.replicate n (Action.sleep 5) := by
  intro n
  have hcw : connect_websocket (some "A") (some "F") (List.replicate n .fail) =
      .ok (.looping { trace := failTrace "A" "F" n, db := [] } .atLoopTop) := by
    rw [connect_websocket_tokens_set "A" "F" rfl rfl, outer_run_replicate_fail]
    simp
  exact ⟨retry_loop_ok _ _ _ _ hcw MAX_TRIES 0, failTrace_filter_sleep "A" "F" n⟩

/-- `process_and_store_data` emits only store actions. -/
theorem process_actions (so : Bool) (db : List QuoteRow) (pm : ParsedMessage) :
    ∀ act ∈ (process_and_store_data so db pm).1, innerActionOk act := by
  intro act hmem
  cases htok : pm.token with
  | none => simp [process_and_store_data, htok] at hmem
  | some tok =>
      cases hltp : pm.last_traded_price with
      | none => simp [process_and_store_data, htok, hltp] at hmem
      | some ltp =>
          cases so with
          | true =>
              simp [process_and_store_data, htok, hltp, store_data_in_clickhouse,
                    client_insert] at hmem
              exact Or.inr (Or.inl ⟨_, hmem⟩)
          | false =>
              simp [process_and_store_data, htok, hltp, store_data_in_clickhouse,
                    client_insert] at hmem
              exact Or.inr (Or.inr hmem)

/-- Handling one delivered message emits only receive-loop actions. -/
theorem handle_frame_actions (m : RawMsg) (so : Bool) (db : List QuoteRow) :
    ∀ act ∈ (handle_frame m so db).1, innerActionOk act := by
  intro act hmem
  cases m with
  | textFrame => simp [handle_frame] at hmem
  | binaryFrame fr =>
      cases hp : parse_binary_data fr with
      | error e => simp [handle_frame, hp] at hmem
      | ok pm =>
          simp only [handle_frame, hp] at hmem
          exact process_actions so db pm act hmem

/-- The receive loop emits only pings and store actions. -/
theorem inner_run_actions :
    ∀ (evs : List InnerEvent) (db : List QuoteRow) (act : Action),
      act ∈ (inner_run evs db).1 → innerActionOk act := by
  intro evs
  induction evs with
  | nil => intro db act h; simp [inner_run] at h
  | cons ev rest ih =>
      intro db act h
      obtain ⟨recv, pd, so⟩ := ev
      cases recv with
      | frame m d =>
          by_cases hd : d ≤ RECV_TIMEOUT
          · simp [inner_run, hd] at h
            rcases h with h | h
            · exact handle_frame_actions m so db act h
            · exact ih _ act h
          · cases hw : watchdog pd with
            | none =>
                simp [inner_run, hd, hw] at h
                rcases h with rfl | h
                · exact Or.inl rfl
                · exact ih _ act h
            | some e =>
                simp [inner_run, hd, hw] at h
                exact Or.inl h
      | closedByPeer d =>
          by_cases hd : d ≤ RECV_TIMEOUT
          · simp [inner_run, hd] at h
          · cases hw : watchdog pd with
            | none =>
                simp [inner_run, hd, hw] at h
                rcases h with rfl | h
                · exact Or.inl rfl
                · exact ih _ act h
            | some e =>
                simp [inner_run, hd, hw] at h
                exact Or.inl h
      | silence =>
          cases hw : watchdog pd with
          | none =>
              simp [inner_run, hw] at h
              rcases h with rfl | h
              · exact Or.inl rfl
              · exact ih _ act h
          | some e =>
              simp [inner_run, hw] at h
              exact Or.inl h

/-- The connect/subscribe/parser-init actions are among the supervisor's
legitimate actions for the given token pair. -/
theorem connect_headers_ok (authTok feedTok : String) :
    ∀ act ∈ connect_headers_trace authTok feedTok, outerActionOk authTok feedTok act := by
  intro act h
  simp [connect_headers_trace] at h
  rcases h with rfl | rfl | rfl
  · exact Or.inl rfl
  · exact Or.inr (Or.inl rfl)
  · exact Or.inr (Or.inr (Or.inl rfl))

/-- The connect action with the run's own tokens is in the vocabulary. -/
theorem outerActionOk_connect (authTok feedTok : String) :
    outerActionOk authTok feedTok (.connectAttempt authTok feedTok) := Or.inl rfl

/-- The 5-unit reconnect sleep is in the vocabulary. -/
theorem outerActionOk_sleep5 (authTok feedTok : String) :
    outerActionOk authTok feedTok (.sleep 5) := Or.inr (Or.inr (Or.inr (Or.inl rfl)))

/-- The error log is in the vocabulary. -/
theorem outerActionOk_log (authTok feedTok : String) :
    outerActionOk authTok feedTok .errorLogged :=
  Or.inr (Or.inr (Or.inr (Or.inr (Or.inl rfl))))

/-- Receive-loop actions are in the vocabulary. -/
theorem outerActionOk_inner {authTok feedTok : String} {act : Action}
    (h : innerActionOk act) : outerActionOk authTok feedTok act :=
  Or.inr (Or.inr (Or.inr (Or.inr (Or.inr h))))

/-- One outer-loop pass only appends actions from the supervisor's action
vocabulary for its token pair. -/
theorem outer_step_trace (authTok feedTok : String) (att : ConnAttempt) (acc : RunAcc) :
    ∀ act ∈ (outer_step authTok feedTok att acc).1.trace,
      act ∈ acc.trace ∨ outerActionOk authTok feedTok act := by
  intro act h
  cases att with
  | fail =>
      simp [outer_step] at h
      rcases h with h | rfl | rfl | rfl
      · exact Or.inl h
      · exact Or.inr (outerActionOk_connect authTok feedTok)
      · exact Or.inr (outerActionOk_log authTok feedTok)
      · exact Or.inr (outerActionOk_sleep5 authTok feedTok)
  | ok events =>
      cases hx : (inner_run events acc.db).2.2 with
      | streaming =>
          simp [outer_step, hx] at h
          rcases h with h | h | h
          · exact Or.inl h
          · exact Or.inr (connect_headers_ok authTok feedTok act (by simpa using h))
          · exact Or.inr (outerActionOk_inner (inner_run_actions events acc.db act h))
      | closedBreak =>
          simp [outer_step, hx] at h
          rcases h with h | h | h | rfl
          · exact Or.inl h
          · exact Or.inr (connect_headers_ok authTok feedTok act (by simpa using h))
          · exact Or.inr (outerActionOk_inner (inner_run_actions events acc.db act h))
          · exact Or.inr (outerActionOk_sleep5 authTok feedTok)
      | raised e =>
          simp [outer_step, hx] at h
          rcases h with h | h | h | rfl | rfl
          · exact Or.inl h
          · exact Or.inr (connect_headers_ok authTok feedTok act (by simpa using h))
          · exact Or.inr (outerActionOk_inner (inner_run_actions events acc.db act h))
          · exact Or.inr (outerActionOk_log authTok feedTok)
          · exact Or.inr (outerActionOk_sleep5 authTok feedTok)

/-- Every action a supervisor run appends to its trace belongs to the action
vocabulary of the token pair the run was started with. -/
theorem outer_run_trace_shape (authTok feedTok : String) :
    ∀ (script : List ConnAttempt) (acc : RunAcc) (act : Action),
      act ∈ (outer_run authTok feedTok script acc).1.trace →
      act ∈ acc.trace ∨ outerActionOk authTok feedTok act := by
  intro script
  induction script with
  | nil =>
      intro acc act h
      simp [outer_run] at h
      exact Or.inl h
  | cons att rest ih =>
      intro acc act h
      rcases hs : outer_step authTok feedTok att acc with ⟨acc2, flag⟩
      have hstep : ∀ a2 ∈ acc2.trace, a2 ∈ acc.trace ∨ outerActionOk authTok feedTok a2 := by
        intro a2 ha2
        have he : acc2 = (outer_step authTok feedTok att acc).1 := by rw [hs]
        exact outer_step_trace authTok feedTok att acc a2 (he ▸ ha2)
      simp only [outer_run] at h
      rw [hs] at h
      cases flag with
      | true =>
          rcases ih acc2 act h with h0 | h0
          · exact hstep act h0
          · exact Or.inr h0
      | false => exact hstep act h

/-- Claim C6: with truthy tokens, `connect_websocket` never returns control;
every connection attempt in its trace presents exactly the token pair the run
was started with, and every subscribe ever sent is the verbatim constant
subscription descriptor; after a successful session acquisition the
orchestrator never reaches another `generate_tokens` call, whatever the
connection-level events (peer closes included). -/
theorem reconnect_same_descriptor_c6 :
    ∀ (authTok feedTok : String) (script : List ConnAttempt),
      authTok.isEmpty = false → feedTok.isEmpty = false →
      (∃ acc st,
        connect_websocket (some authTok) (some feedTok) script = .ok (.looping acc st) ∧
        (∀ x y, Action.connectAttempt x y ∈ acc.trace → x = authTok ∧ y = feedTok) ∧
        (∀ m, Action.subscribeSend m ∈ acc.trace → m = subscribe_message)) ∧
      (∀ (it : IterInput) (s : TokenState),
        (generate_tokens it.resp s).1.AUTH_TOKEN = some authTok →
        (generate_tokens it.resp s).1.FEED_TOKEN = some feedTok →
        (generate_tokens it.resp s).2 = none →
        (main_iter it s).2.2 = false) := by
  intro authTok feedTok script ha hf
  constructor
  · refine ⟨_, _, connect_websocket_tokens_set authTok feedTok ha hf script, ?_, ?_⟩
    · intro x y hmem
      rcases outer_run_trace_shape authTok feedTok script _ _ hmem with h0 | h0
      · simp at h0
      · rcases h0 with h0 | h0 | h0 | h0 | h0 | h0
        · simpa using h0
        · simp at h0
        · simp at h0
        · simp at h0
        · simp at h0
        · rcases h0 with h0 | ⟨r, h0⟩ | h0 <;> simp at h0
    · intro m hmem
      rcases outer_run_trace_shape authTok feedTok script _ _ hmem with h0 | h0
      · simp at h0
      · rcases h0 with h0 | h0 | h0 | h0 | h0 | h0
        · simp at h0
        · simpa using h0
        · simp at h0
        · simp at h0
        · simp at h0
        · rcases h0 with h0 | ⟨r, h0⟩ | h0 <;> simp at h0
  · intro it s h1 h2 h3
    have hcw := connect_websocket_tokens_set authTok feedTok ha hf it.script
    have hcr := retry_loop_ok _ _ _ _ hcw MAX_TRIES 0
    simp [main_iter, h3, h1, h2, connect_with_retry, hcr]

/-- Witness for C6: after a successful session acquisition with truthy
tokens, the loop body never returns to the top (no re-authentication). -/
theorem reconnect_same_descriptor_c6_witness :
    (main_iter
        { resp := { status := 200, body := "b", jwtToken := some "A", feedToken := some "F" },
          script := [ConnAttempt.fail] } initialTokens).2.2 = false :=
  (reconnect_same_descriptor_c6 "A" "F" [ConnAttempt.fail] rfl rfl).2
    { resp := { status := 200, body := "b", jwtToken := some "A", feedToken := some "F" },
      script := [ConnAttempt.fail] } initialTokens rfl rfl rfl

/-- Since the wrapped call never raises, the decorator is transparent: it
makes exactly one call and sleeps no backoff delay. -/
theorem connect_with_retry_eq (authTok feedTok : Option String) (script : List ConnAttempt) :
    connect_with_retry authTok feedTok script =
      (connect_websocket authTok feedTok script, []) := by
  obtain ⟨r, hr⟩ := connect_websocket_ok authTok feedTok script
  rw [connect_with_retry, retry_loop_ok _ _ _ _ hr MAX_TRIES 0, hr]

/-- A `connect_websocket` call either returns early with an empty trace or
loops with a trace produced by some `outer_run` from the empty accumulator. -/
theorem connect_websocket_trace_shape (authTok feedTok : Option String)
    (script : List ConnAttempt) :
    connect_websocket authTok feedTok script =
        .ok (.earlyReturn { trace := [], db := [] }) ∨
    (∃ a f st, connect_websocket authTok feedTok script =
        .ok (.looping (outer_run a f script { trace := [], db := [] }).1 st)) := by
  rw [connect_websocket]
  by_cases h : (isFalsy authTok || isFalsy feedTok) = true
  · rw [if_pos h]; exact Or.inl rfl
  · rw [if_neg h]; exact Or.inr ⟨_, _, _, rfl⟩

/-- No supervisor action is the schema-ensure call. -/
theorem outerActionOk_not_ensure {authTok feedTok : String} {act : Action}
    (h : outerActionOk authTok feedTok act) : isEnsure act = false := by
  rcases h with rfl | rfl | rfl | rfl | rfl | h
  · rfl
  · rfl
  · rfl
  · rfl
  · rfl
  · rcases h with rfl | ⟨r, rfl⟩ | rfl <;> rfl

/-- No iteration of `main`'s loop body ever emits the schema-ensure call. -/
theorem main_iter_no_ensure (it : IterInput) (s : TokenState) :
    ∀ act ∈ (main_iter it s).2.1, isEnsure act = false := by
  intro act h
  simp only [main_iter] at h
  cases hg : (generate_tokens it.resp s).2 with
  | some e =>
      simp [hg] at h
      rcases h with rfl | rfl | rfl <;> rfl
  | none =>
      rcases connect_websocket_trace_shape (generate_tokens it.resp s).1.AUTH_TOKEN
          (generate_tokens it.resp s).1.FEED_TOKEN it.script with hca | ⟨a, f, st, hca⟩
      · simp [hg, connect_with_retry_eq, hca] at h
        rcases h with rfl | rfl <;> rfl
      · simp [hg, connect_with_retry_eq, hca] at h
        rcases h with rfl | h
        · rfl
        · rcases outer_run_trace_shape a f it.script _ act h with h0 | h0
          · simp at h0
          · exact outerActionOk_not_ensure h0

/-- The loop only extends the trace it was given, and never with a
schema-ensure action. -/
theorem main_loop_trace_ext :
    ∀ (iters : List IterInput) (s : TokenState) (tr : List Action),
      ∃ ext, (main_loop iters s tr).2.1 = tr ++ ext ∧
        ∀ act ∈ ext, isEnsure act = false := by
  intro iters
  induction iters with
  | nil =>
      intro s tr
      exact ⟨[], by simp [main_loop], by simp⟩
  | cons it rest ih =>
      intro s tr
      have hno := main_iter_no_ensure it s
      rcases hmi : main_iter it s with ⟨s2, acts, flag⟩
      rw [hmi] at hno
      simp only at hno
      cases flag with
      | false =>
          refine ⟨acts, ?_, hno⟩
          simp [main_loop, hmi]
      | true =>
          obtain ⟨ext, he, hne⟩ := ih s2 (tr ++ acts)
          refine ⟨acts ++ ext, ?_, ?_⟩
          · simp [main_loop, hmi, he]
          · intro act hact
            rcases List.mem_append.mp hact with h | h
            · exact hno act h
            · exact hne act h

/-- Claim C8: the idempotent schema-ensure runs exactly once, as the very
first action, before the first session acquisition; every failure reaching
the orchestrator — authentication failures included — is caught, logged, and
followed by the fixed 10-unit cooldown, after which the loop continues to the
next session acquisition (no terminal state). -/
theorem orchestrator_schema_once_cooldown_c8 :
    (∀ iters : List IterInput,
      ((main_run iters).2.1).head? = some Action.ensureSchema ∧
      ((main_run iters).2.1).countP isEnsure = 1) ∧
    (∀ (it : IterInput) (s : TokenState),
      ((generate_tokens it.resp s).2).isSome = true →
      main_iter it s =
        ((generate_tokens it.resp s).1,
         [Action.authRequest, Action.errorLogged, Action.sleep 10], true)) := by
  constructor
  · intro iters
    obtain ⟨ext, he, hno⟩ :=
      main_loop_trace_ext iters { AUTH_TOKEN := none, FEED_TOKEN := none } [.ensureSchema]
    rw [main_run, he]
    constructor
    · rfl
    · rw [List.countP_append]
      have h0 : ext.countP isEnsure = 0 :=
        List.countP_eq_zero.mpr (fun a ha => by simp [hno a ha])
      rw [h0]
      rfl
  · intro it s h
    cases hg : (generate_tokens it.resp s).2 with
    | none => rw [hg] at h; simp at h
    | some e => simp [main_iter, hg]

/-- Witness for C8: a rejected login is logged and cooled down, and the loop
continues. -/
theorem orchestrator_schema_once_cooldown_c8_witness :
    main_iter { resp := respRejected, script := [] } initialTokens =
      ((generate_tokens respRejected initialTokens).1,
       [Action.authRequest, Action.errorLogged, Action.sleep 10], true) :=
  orchestrator_schema_once_cooldown_c8.2 { resp := respRejected, script := [] }
    initialTokens rfl

end MarketFeed
